import Mathlib

/-!
Shallow embedding of the core of the `intel-8080-emu` repository
(an Intel 8080 emulator written in Rust) and proofs about it.

The embedding follows the Rust sources file by file:
  * `src/cpu/utils.rs`      — bit/byte helpers
  * `src/cpu/registers.rs`  — `RegisterValue`, `Register`, `RegisterArray`
  * `src/cpu/memory.rs`     — `MemorySize`, `Memory`
  * `src/cpu/alu.rs`        — `AluFlags`, `AluOperation`, `Alu`
  * `src/cpu/instruction.rs`— operand model and the opcode decoder
  * `src/cpu.rs`            — the execution engine

Machine integers are modelled as `Nat` with explicit `% 256` / `% 65536`
where the Rust code wraps.  Fallible Rust functions returning
`Result<_, String>` are modelled in `Except String`; computations that can
in addition fail to return at all (the `RegisterValue::try_add` recursion
can diverge, and `execute_cycles` contains an unbounded loop) are modelled
in `Res := ExceptT String Option`, where the `none` layer means
"the Rust program does not return normally" (non-termination or abort);
recursions that are not structural take an explicit fuel argument, and
running out of fuel also yields `none`.
-/

namespace I8080

/-- Result type for emulator steps: `none` models a computation that never
returns normally; `some (Except.error e)` models `Err(e)`; `some (Except.ok a)`
models `Ok(a)`. -/
abbrev Res (α : Type) : Type := ExceptT String Option α

/-- `Ok` outcome. -/
def Res.ok {α : Type} (a : α) : Res α := ExceptT.mk (some (Except.ok a))

/-- `Err` outcome. -/
def Res.err {α : Type} (e : String) : Res α := ExceptT.mk (some (Except.error e))

/-- The computation does not return normally (divergence or abort). -/
def Res.div {α : Type} : Res α := ExceptT.mk (none : Option (Except String α))

/-- Lift an infallible-but-`Result`-typed Rust computation into `Res`. -/
def Res.liftE {α : Type} (e : Except String α) : Res α := ExceptT.mk (some e)

theorem Res.ok_eq_pure {α : Type} (a : α) : Res.ok a = (pure a : Res α) := rfl

/- ------------------------------------------------------------------ -/
/- `src/cpu/utils.rs`                                                  -/
/- ------------------------------------------------------------------ -/

/-- `utils::combine_values`: `(higher << 8) + lower`. -/
def combineValues (higher lower : Nat) : Nat := higher * 256 + lower

/-- `utils::separate_values`: a 16-bit value split into (higher, lower). -/
def separateValues (value : Nat) : Nat × Nat := ((value >>> 8) &&& 0xFF, value &&& 0xFF)

/-- `u8::count_ones` for a byte-sized value (the argument is `< 256` at every
use site, so summing the low eight bits is exact). -/
def countOnes8 (x : Nat) : Nat :=
  (x % 2) + (x / 2 % 2) + (x / 4 % 2) + (x / 8 % 2) +
  (x / 16 % 2) + (x / 32 % 2) + (x / 64 % 2) + (x / 128 % 2)

/-- `utils::get_bits`: the eight bits of a byte, most significant first,
as a tuple (the Rust code returns an `[u8; 8]` array). -/
def getBits (x : Nat) : Nat × Nat × Nat × Nat × Nat × Nat × Nat × Nat :=
  (((x >>> 7) &&& 1), ((x >>> 6) &&& 1), ((x >>> 5) &&& 1), ((x >>> 4) &&& 1),
   ((x >>> 3) &&& 1), ((x >>> 2) &&& 1), ((x >>> 1) &&& 1), (x &&& 1))

/-- `utils::from_bits`: rebuild a byte from eight bits, most significant
first. -/
def fromBits (b7 b6 b5 b4 b3 b2 b1 b0 : Nat) : Nat :=
  b7 * 0x80 + b6 * 0x40 + b5 * 0x20 + b4 * 0x10 + b3 * 8 + b2 * 4 + b1 * 2 + b0

/- ------------------------------------------------------------------ -/
/- `src/cpu/registers.rs`: `RegisterValue`                             -/
/- ------------------------------------------------------------------ -/

/-- `RegisterValue` — an 8-bit value, a pair of 8-bit values, or a 16-bit
value (payloads are `Nat`s kept below 2^8 / 2^16 by the operations). -/
inductive RegisterValue where
  | integer8 (v : Nat)
  | integer8Pair (hi lo : Nat)
  | integer16 (v : Nat)
deriving DecidableEq, Repr

namespace RegisterValue

/-- `impl From<RegisterValue> for u16`. -/
def toU16 : RegisterValue → Nat
  | integer8 v => v
  | integer8Pair hi lo => combineValues hi lo
  | integer16 v => v

/-- `impl TryFrom<RegisterValue> for u8` (only the `Integer8` variant
converts). -/
def toU8 : RegisterValue → Except String Nat
  | integer8 v => Except.ok v
  | _ => Except.error "Only an 8-bit register can be converted to u8"

/-- `RegisterValue::n_bytes`. -/
def nBytes : RegisterValue → Nat
  | integer8 _ => 1
  | integer8Pair _ _ => 2
  | integer16 _ => 2

/-- `RegisterValue::try_add`.  The Rust function recurses after converting a
pair operand to `Integer16`; when the right operand is an `Integer8Pair` it
recurses with the *same* arguments (`merged.try_add(rhs)` where `rhs` is
still the pair), so that call never returns — hence the fuel, with `none`
modelling the divergence.  The `+` on same-width operands is Rust's plain
addition, which wraps in release builds (debug builds abort on overflow;
either way no in-range result is produced on overflow, and no claim below
depends on out-of-range sums through this function). -/
def tryAdd : Nat → RegisterValue → RegisterValue → Res RegisterValue
  | 0, _, _ => Res.div
  | fuel + 1, lhs, rhs =>
    match lhs with
    | integer8Pair hi lo => tryAdd fuel (integer16 (combineValues hi lo)) rhs
    | _ =>
      match rhs with
      | integer8Pair hi lo =>
        -- mirrors the source exactly: the recursive call passes `rhs` again
        let merged := integer16 (combineValues hi lo)
        tryAdd fuel merged rhs
      | _ =>
        match lhs, rhs with
        | integer8 a, integer8 b => Res.ok (integer8 ((a + b) % 256))
        | integer16 a, integer16 b => Res.ok (integer16 ((a + b) % 65536))
        | _, _ => Res.err "Could not add RegisterValues"

end RegisterValue

/- ------------------------------------------------------------------ -/
/- `src/cpu/memory.rs`                                                 -/
/- ------------------------------------------------------------------ -/

/-- `MemorySize`. -/
inductive MemorySize where
  | integer8
  | integer16
deriving DecidableEq, Repr

/-- `MemorySize::n_bytes`. -/
def MemorySize.nBytes : MemorySize → Nat
  | integer8 => 1
  | integer16 => 2

/-- Modelled from the spec: `MemorySize::from_bytes` is called by the
execution engine (§4.5 fetches operands of 1 or 2 bytes) but its definition
is not among the sources; a read or write is tagged with a size of 1 or 2
bytes (§3), so 1 maps to the 8-bit size, 2 to the 16-bit size and anything
else is an error. -/
def MemorySize.fromBytes : Nat → Except String MemorySize
  | 1 => Except.ok MemorySize.integer8
  | 2 => Except.ok MemorySize.integer16
  | _ => Except.error "Invalid memory size"

/-- `Memory` — the flat 64 KiB byte array, as a function from address to
byte. -/
structure Memory where
  data : Nat → Nat

/-- `Memory::new` — zero-initialised. -/
def Memory.new : Memory := ⟨fun _ => 0⟩

/-- `Memory::read`. -/
def Memory.read (m : Memory) (addr : RegisterValue) (size : MemorySize) :
    Except String RegisterValue :=
  let addr := addr.toU16
  match size with
  | MemorySize.integer8 => Except.ok (RegisterValue.integer8 (m.data addr))
  | MemorySize.integer16 =>
    if addr = 0xFFFF then
      Except.error "Attempt to read outside of memory"
    else
      let lower := m.data addr
      let higher := m.data (addr + 1)
      Except.ok (RegisterValue.integer16 (higher * 256 + lower))

/-- `Memory::write`. -/
def Memory.write (m : Memory) (addr : RegisterValue) (value : RegisterValue) :
    Except String Memory :=
  let addr := addr.toU16
  match value with
  | RegisterValue.integer16 _ | RegisterValue.integer8Pair _ _ =>
    if addr = 0xFFFF then
      Except.error "Attempt to write outside of memory"
    else
      let v := value.toU16
      let lower := v &&& 0xFF
      let higher := v >>> 8
      Except.ok ⟨fun a => if a = addr then lower else if a = addr + 1 then higher else m.data a⟩
  | RegisterValue.integer8 _ => do
    let v ← value.toU8
    Except.ok ⟨fun a => if a = addr then v else m.data a⟩

/- ------------------------------------------------------------------ -/
/- `src/cpu/registers.rs`: `Register`, `RegisterArray`                 -/
/- ------------------------------------------------------------------ -/

/-- `Register` — every referencable register and pair. -/
inductive Register where
  | PC | SP
  | B | C | D | E | H | L | W | Z
  | BC | DE | HL | WZ | PSW
deriving DecidableEq, Repr

namespace Register

/-- `Register::from_reg_id` (the `sss`/`ddd` operand encoding; 6 = memory
and 7 = accumulator are rejected here and handled by the caller). -/
def fromRegId : Nat → Except String Register
  | 0 => Except.ok B
  | 1 => Except.ok C
  | 2 => Except.ok D
  | 3 => Except.ok E
  | 4 => Except.ok H
  | 5 => Except.ok L
  | 6 => Except.error "Attempt to read from the register M, which is not an actual register"
  | 7 => Except.error "Attempt to read from register A, which is contained in the ALU"
  | _ => Except.error "Unknown register ID"

/-- `Register::from_rp_id` (the `rp` register-pair encoding). -/
def fromRpId : Nat → Except String Register
  | 0 => Except.ok BC
  | 1 => Except.ok DE
  | 2 => Except.ok HL
  | 3 => Except.ok SP
  | _ => Except.error "Unknown register pair ID"

/-- `Register::n_bytes`. -/
def nBytes : Register → Nat
  | B | C | D | E | H | L | W | Z => 1
  | PC | SP | BC | DE | HL | WZ | PSW => 2

end Register

/-- `RegisterArray` — the register file (A and F mirrored here for the
PSW view, as in the source). -/
structure RegisterArray where
  programCounter : Nat
  stackPointer : Nat
  regA : Nat
  regF : Nat
  regB : Nat
  regC : Nat
  regD : Nat
  regE : Nat
  regH : Nat
  regL : Nat
  regW : Nat
  regZ : Nat

/-- `RegisterArray::new` — all zero. -/
def RegisterArray.new : RegisterArray := ⟨0, 0, 0, 0, 0, 0, 0, 0, 0, 0, 0, 0⟩

/-- `RegisterArray::read_reg`. -/
def RegisterArray.readReg (r : RegisterArray) : Register → RegisterValue
  | Register.PC => RegisterValue.integer16 r.programCounter
  | Register.SP => RegisterValue.integer16 r.stackPointer
  | Register.B => RegisterValue.integer8 r.regB
  | Register.C => RegisterValue.integer8 r.regC
  | Register.D => RegisterValue.integer8 r.regD
  | Register.E => RegisterValue.integer8 r.regE
  | Register.H => RegisterValue.integer8 r.regH
  | Register.L => RegisterValue.integer8 r.regL
  | Register.W => RegisterValue.integer8 r.regW
  | Register.Z => RegisterValue.integer8 r.regZ
  | Register.BC => RegisterValue.integer8Pair r.regB r.regC
  | Register.DE => RegisterValue.integer8Pair r.regD r.regE
  | Register.HL => RegisterValue.integer8Pair r.regH r.regL
  | Register.WZ => RegisterValue.integer8Pair r.regW r.regZ
  | Register.PSW => RegisterValue.integer8Pair r.regA r.regF

/-- `RegisterArray::write_reg` (16-bit targets accept any value via
`u16::from`; 8-bit targets require an `Integer8` via `u8::try_from`). -/
def RegisterArray.writeReg (r : RegisterArray) (register : Register)
    (value : RegisterValue) : Except String RegisterArray :=
  match register with
  | Register.PC => Except.ok { r with programCounter := value.toU16 }
  | Register.SP => Except.ok { r with stackPointer := value.toU16 }
  | Register.B => do Except.ok { r with regB := (← value.toU8) }
  | Register.C => do Except.ok { r with regC := (← value.toU8) }
  | Register.D => do Except.ok { r with regD := (← value.toU8) }
  | Register.E => do Except.ok { r with regE := (← value.toU8) }
  | Register.H => do Except.ok { r with regH := (← value.toU8) }
  | Register.L => do Except.ok { r with regL := (← value.toU8) }
  | Register.W => do Except.ok { r with regW := (← value.toU8) }
  | Register.Z => do Except.ok { r with regZ := (← value.toU8) }
  | Register.BC =>
    let s := separateValues value.toU16
    Except.ok { r with regB := s.1, regC := s.2 }
  | Register.DE =>
    let s := separateValues value.toU16
    Except.ok { r with regD := s.1, regE := s.2 }
  | Register.HL =>
    let s := separateValues value.toU16
    Except.ok { r with regH := s.1, regL := s.2 }
  | Register.WZ =>
    let s := separateValues value.toU16
    Except.ok { r with regW := s.1, regZ := s.2 }
  | Register.PSW =>
    let s := separateValues value.toU16
    Except.ok { r with regA := s.1, regF := s.2 }

/- ------------------------------------------------------------------ -/
/- `src/cpu/alu.rs`                                                    -/
/- ------------------------------------------------------------------ -/

/-- `AluFlags` — the five ALU flags. -/
structure AluFlags where
  zero : Bool
  sign : Bool
  parity : Bool
  carry : Bool
  auxCarry : Bool
deriving DecidableEq, Repr

/-- `AluFlags::new` — all false. -/
def AluFlags.new : AluFlags := ⟨false, false, false, false, false⟩

/-- `AluFlags::from_bools`. -/
def AluFlags.fromBools (zero sign parity carry auxCarry : Bool) : AluFlags :=
  ⟨zero, sign, parity, carry, auxCarry⟩

/-- `InstructionCondition` — the eight condition codes. -/
inductive InstructionCondition where
  | NotZero | Zero | NoCarry | Carry | ParityOdd | ParityEven | Plus | Minus
deriving DecidableEq, Repr

/-- `InstructionCondition::from_id`. -/
def InstructionCondition.fromId : Nat → Except String InstructionCondition
  | 0 => Except.ok NotZero
  | 1 => Except.ok Zero
  | 2 => Except.ok NoCarry
  | 3 => Except.ok Carry
  | 4 => Except.ok ParityOdd
  | 5 => Except.ok ParityEven
  | 6 => Except.ok Plus
  | 7 => Except.ok Minus
  | _ => Except.error "Unknown InstructionCondition ID"

/-- `AluFlags::evaluate_condition`. -/
def AluFlags.evaluateCondition (f : AluFlags) : InstructionCondition → Bool
  | InstructionCondition.NotZero => !f.zero
  | InstructionCondition.Zero => f.zero
  | InstructionCondition.NoCarry => !f.carry
  | InstructionCondition.Carry => f.carry
  | InstructionCondition.ParityOdd => !f.parity
  | InstructionCondition.ParityEven => f.parity
  | InstructionCondition.Plus => !f.sign
  | InstructionCondition.Minus => f.sign

/-- Modelled from the spec: `AluFlags::from_f` is called when the PSW is
written (§4.1: "Writing PSW must additionally decompose the low byte into
the five flag booleans per the `SZ0A0P1C` layout") but its definition is not
among the sources.  The flags byte is `S Z 0 AC 0 P 1 C` (§3, glossary), so
sign is bit 7, zero bit 6, auxiliary carry bit 4, parity bit 2 and carry
bit 0 of the (8-bit) value. -/
def AluFlags.fromF (value : RegisterValue) : Except String AluFlags := do
  let f ← value.toU8
  Except.ok
    { sign := ((f >>> 7) &&& 1) = 1
      zero := ((f >>> 6) &&& 1) = 1
      auxCarry := ((f >>> 4) &&& 1) = 1
      parity := ((f >>> 2) &&& 1) = 1
      carry := (f &&& 1) = 1 }

/-- `AluOperation`. -/
inductive AluOperation where
  | Add (a b : RegisterValue)
  | AddCarry (a b : RegisterValue)
  | Sub (a b : RegisterValue)
  | SubBorrow (a b : RegisterValue)
  | Increment (a : RegisterValue)
  | Decrement (a : RegisterValue)
  | DecimalAdjust (a : RegisterValue)
  | BitwiseAnd (a b : RegisterValue)
  | BitwiseXor (a b : RegisterValue)
  | BitwiseOr (a b : RegisterValue)
  | Comparison (a b : RegisterValue)
  | RotateLeft (a : RegisterValue)
  | RotateRight (a : RegisterValue)
  | RotateLeftThroughCarry (a : RegisterValue)
  | RotateRightThroughCarry (a : RegisterValue)
  | Complement (a : RegisterValue)
  | SetCarry
  | ComplementCarry
deriving DecidableEq, Repr

/-- `Alu` — accumulator plus flags. -/
structure Alu where
  accumulator : RegisterValue
  flags : AluFlags

/-- `Alu::new`. -/
def Alu.new : Alu := ⟨RegisterValue.integer8 0, AluFlags.new⟩

/-- `Alu::write_accumulator` — rejects values that are not one byte wide. -/
def Alu.writeAccumulator (alu : Alu) (value : RegisterValue) : Except String Alu :=
  if value.nBytes ≠ 1 then
    Except.error "Attempted to write a wide value to the accumulator register"
  else
    Except.ok { alu with accumulator := value }

/-- Modelled from the spec: `Alu::write_flags` is called when the PSW is
written (§4.1) but its definition is not among the sources; it replaces the
flag register with the given flags. -/
def Alu.writeFlags (alu : Alu) (flags : AluFlags) : Alu := { alu with flags }

/-- `Alu::add` — addition with optional carry-in (the carry is folded into
`y` with `wrapping_add` *before* the sum, exactly as in the source).
Arguments are `u8` values (`< 256` at every call site). -/
def Alu.add (alu : Alu) (x y : Nat) (useCarry : Bool) : Nat × Alu :=
  let carry := if useCarry then (if alu.flags.carry then 1 else 0) else 0
  let y := if useCarry then (y + carry) % 256 else y
  let result := (x + y) % 256
  let lowerSum := (x &&& 0xF) + (y &&& 0xF)
  let flags : AluFlags :=
    { zero := result = 0
      sign := (result &&& 0x80) ≠ 0
      parity := countOnes8 result % 2 = 0
      carry := 255 < x + y          -- `x.checked_add(y) == None`
      auxCarry := 0 < (lowerSum &&& 0x10) }
  (result, { alu with flags })

/-- `Alu::sub` — subtraction with optional borrow-in (the borrow is folded
into `y` with `wrapping_add` *before* the difference, as in the source). -/
def Alu.sub (alu : Alu) (x y : Nat) (useCarry : Bool) : Nat × Alu :=
  let carry := if useCarry then (if alu.flags.carry then 1 else 0) else 0
  let y := if useCarry then (y + carry) % 256 else y
  let result := (x + 256 - y) % 256   -- `x.wrapping_sub(y)` for x, y < 256
  let flags : AluFlags :=
    { zero := result = 0
      sign := (result &&& 0x80) ≠ 0
      parity := countOnes8 result % 2 = 0
      carry := x < y                  -- `x.checked_sub(y) == None`
      auxCarry := (x &&& 0xF) < (y &&& 0xF) }
  (result, { alu with flags })

/-- `Alu::inc_dec` — 8-bit increment/decrement; saves and restores the
carry flag around the underlying add/sub. -/
def Alu.incDec (alu : Alu) (x : Nat) (increment : Bool) : Nat × Alu :=
  let carryFlagCopy := alu.flags.carry
  let step := if increment then alu.add x 1 false else alu.sub x 1 false
  let result := step.1
  let alu := step.2
  (result, { alu with flags := { alu.flags with carry := carryFlagCopy } })

/-- `Alu::inc_dec16` — 16-bit increment/decrement, no flag updates. -/
def Alu.incDec16 (_alu : Alu) (x : Nat) (increment : Bool) : Nat :=
  if increment then (x + 1) % 65536 else (x + 65536 - 1) % 65536

/-- `Alu::decimal_adjust` — the two-step BCD adjustment; each step that
fires goes through `Alu::add` and therefore rewrites all five flags. -/
def Alu.decimalAdjust (alu : Alu) (x : Nat) : Nat × Alu :=
  -- step 1
  let lowerBits := x &&& 0xF
  let s1 := if lowerBits > 9 || alu.flags.auxCarry then alu.add x 6 false else (x, alu)
  let x := s1.1
  let alu := s1.2
  -- step 2
  let higherBits := (x &&& 0xF0) >>> 4
  let s2 := if higherBits > 9 || alu.flags.carry then alu.add x 0x60 false else (x, alu)
  (s2.1, s2.2)

/-- `Alu::bitwise_and`. -/
def Alu.bitwiseAnd (alu : Alu) (x y : Nat) : Nat × Alu :=
  let result := x &&& y
  let flags : AluFlags :=
    { zero := result = 0
      sign := (result &&& 0x80) ≠ 0
      parity := countOnes8 result % 2 = 0
      carry := false
      auxCarry := false }
  (result, { alu with flags })

/-- `Alu::bitwise_xor`. -/
def Alu.bitwiseXor (alu : Alu) (x y : Nat) : Nat × Alu :=
  let result := x ^^^ y
  let flags : AluFlags :=
    { zero := result = 0
      sign := (result &&& 0x80) ≠ 0
      parity := countOnes8 result % 2 = 0
      carry := false
      auxCarry := false }
  (result, { alu with flags })

/-- `Alu::bitwise_or`. -/
def Alu.bitwiseOr (alu : Alu) (x y : Nat) : Nat × Alu :=
  let result := x ||| y
  let flags : AluFlags :=
    { zero := result = 0
      sign := (result &&& 0x80) ≠ 0
      parity := countOnes8 result % 2 = 0
      carry := false
      auxCarry := false }
  (result, { alu with flags })

/-- `Alu::rotate` — one-bit rotation in either direction, optionally
"through carry": the carry flag always receives the bit rotated out, and
for through-carry rotations the bit rotated in is the *old* carry flag. -/
def Alu.rotate (alu : Alu) (x : Nat) (right throughCarry : Bool) : Nat × Alu :=
  let carryCopy := alu.flags.carry
  let newCarry := if right then (x &&& 0x01) ≠ 0 else (x &&& 0x80) ≠ 0
  let rotated :=
    if right then ((x >>> 1) ||| ((x &&& 1) <<< 7)) % 256
    else (((x <<< 1) ||| (x >>> 7)) % 256)
  let result :=
    if throughCarry then
      if right then
        ((rotated &&& 0x7F) ||| ((if carryCopy then 1 else 0) <<< 7))
      else
        ((rotated &&& 0xFE) ||| (if carryCopy then 1 else 0))
    else rotated
  (result, { alu with flags := { alu.flags with carry := newCarry } })

/-- `Alu::complement` — bitwise NOT (`!x` on `u8`); flags untouched. -/
def Alu.complement (alu : Alu) (x : Nat) : Nat × Alu :=
  (x ^^^ 0xFF, alu)

/-- `Alu::evaluate` — dispatch an `AluOperation`, update the accumulator
with the result when there is one, and return it.  The source first
converts the operands (binary operations require `u8` via `try_into`; unary
operations use `u8` for `Integer8` and `u16` otherwise) and then calls
`unwrap()` on the converted slot; for a unary *8-bit-only* operation
(decimal adjust, rotations, complement) applied to a 16-bit value the
`x.unwrap()` aborts, modelled by `Res.div`. -/
def Alu.evaluate (alu : Alu) (operation : AluOperation) :
    Res (Option RegisterValue × Alu) :=
  match operation with
  | AluOperation.Add a b => do
    let x ← Res.liftE a.toU8
    let y ← Res.liftE b.toU8
    let s := alu.add x y false
    Res.ok (some (RegisterValue.integer8 s.1), { s.2 with accumulator := RegisterValue.integer8 s.1 })
  | AluOperation.AddCarry a b => do
    let x ← Res.liftE a.toU8
    let y ← Res.liftE b.toU8
    let s := alu.add x y true
    Res.ok (some (RegisterValue.integer8 s.1), { s.2 with accumulator := RegisterValue.integer8 s.1 })
  | AluOperation.Sub a b => do
    let x ← Res.liftE a.toU8
    let y ← Res.liftE b.toU8
    let s := alu.sub x y false
    Res.ok (some (RegisterValue.integer8 s.1), { s.2 with accumulator := RegisterValue.integer8 s.1 })
  | AluOperation.SubBorrow a b => do
    let x ← Res.liftE a.toU8
    let y ← Res.liftE b.toU8
    let s := alu.sub x y true
    Res.ok (some (RegisterValue.integer8 s.1), { s.2 with accumulator := RegisterValue.integer8 s.1 })
  | AluOperation.Increment a =>
    match a with
    | RegisterValue.integer8 v =>
      let s := alu.incDec v true
      Res.ok (some (RegisterValue.integer8 s.1), { s.2 with accumulator := RegisterValue.integer8 s.1 })
    | _ =>
      let r := alu.incDec16 a.toU16 true
      Res.ok (some (RegisterValue.integer16 r), { alu with accumulator := RegisterValue.integer16 r })
  | AluOperation.Decrement a =>
    match a with
    | RegisterValue.integer8 v =>
      let s := alu.incDec v false
      Res.ok (some (RegisterValue.integer8 s.1), { s.2 with accumulator := RegisterValue.integer8 s.1 })
    | _ =>
      let r := alu.incDec16 a.toU16 false
      Res.ok (some (RegisterValue.integer16 r), { alu with accumulator := RegisterValue.integer16 r })
  | AluOperation.DecimalAdjust a =>
    match a with
    | RegisterValue.integer8 v =>
      let s := alu.decimalAdjust v
      Res.ok (some (RegisterValue.integer8 s.1), { s.2 with accumulator := RegisterValue.integer8 s.1 })
    | _ => Res.div
  | AluOperation.BitwiseAnd a b => do
    let x ← Res.liftE a.toU8
    let y ← Res.liftE b.toU8
    let s := alu.bitwiseAnd x y
    Res.ok (some (RegisterValue.integer8 s.1), { s.2 with accumulator := RegisterValue.integer8 s.1 })
  | AluOperation.BitwiseXor a b => do
    let x ← Res.liftE a.toU8
    let y ← Res.liftE b.toU8
    let s := alu.bitwiseXor x y
    Res.ok (some (RegisterValue.integer8 s.1), { s.2 with accumulator := RegisterValue.integer8 s.1 })
  | AluOperation.BitwiseOr a b => do
    let x ← Res.liftE a.toU8
    let y ← Res.liftE b.toU8
    let s := alu.bitwiseOr x y
    Res.ok (some (RegisterValue.integer8 s.1), { s.2 with accumulator := RegisterValue.integer8 s.1 })
  | AluOperation.Comparison a b => do
    let x ← Res.liftE a.toU8
    let y ← Res.liftE b.toU8
    let s := alu.sub x y false
    -- comparison discards the result: accumulator untouched
    Res.ok (none, { s.2 with accumulator := alu.accumulator })
  | AluOperation.RotateLeft a =>
    match a with
    | RegisterValue.integer8 v =>
      let s := alu.rotate v false false
      Res.ok (some (RegisterValue.integer8 s.1), { s.2 with accumulator := RegisterValue.integer8 s.1 })
    | _ => Res.div
  | AluOperation.RotateRight a =>
    match a with
    | RegisterValue.integer8 v =>
      let s := alu.rotate v true false
      Res.ok (some (RegisterValue.integer8 s.1), { s.2 with accumulator := RegisterValue.integer8 s.1 })
    | _ => Res.div
  | AluOperation.RotateLeftThroughCarry a =>
    match a with
    | RegisterValue.integer8 v =>
      let s := alu.rotate v false true
      Res.ok (some (RegisterValue.integer8 s.1), { s.2 with accumulator := RegisterValue.integer8 s.1 })
    | _ => Res.div
  | AluOperation.RotateRightThroughCarry a =>
    match a with
    | RegisterValue.integer8 v =>
      let s := alu.rotate v true true
      Res.ok (some (RegisterValue.integer8 s.1), { s.2 with accumulator := RegisterValue.integer8 s.1 })
    | _ => Res.div
  | AluOperation.Complement a =>
    match a with
    | RegisterValue.integer8 v =>
      let s := alu.complement v
      Res.ok (some (RegisterValue.integer8 s.1), { s.2 with accumulator := RegisterValue.integer8 s.1 })
    | _ => Res.div
  | AluOperation.SetCarry =>
    Res.ok (none, { alu with flags := { alu.flags with carry := true } })
  | AluOperation.ComplementCarry =>
    Res.ok (none, { alu with flags := { alu.flags with carry := !alu.flags.carry } })

/- ------------------------------------------------------------------ -/
/- `src/cpu/instruction.rs`                                            -/
/- ------------------------------------------------------------------ -/

/-- `MemorySource` — where a memory operand's address comes from. -/
inductive MemorySource where
  | Address (addr : RegisterValue)
  | Register (register : Register)
  | ProgramCounter
deriving DecidableEq, Repr

/-- `InstructionSource` — the recursive operand model. -/
inductive InstructionSource where
  | Memory (src : MemorySource) (size : MemorySize)
  | Register (register : Register)
  | Accumulator
  | Sum (a b : InstructionSource)
  | Value (value : RegisterValue)
deriving DecidableEq, Repr

/-- `InstructionSource::from_id` — the `sss`/`ddd` operand encoding. -/
def InstructionSource.fromId (id : Nat) : Except String InstructionSource :=
  if id ≤ 5 then do
    Except.ok (InstructionSource.Register (← Register.fromRegId id))
  else if id = 6 then
    Except.ok (InstructionSource.Memory (MemorySource.Register Register.HL) MemorySize.integer8)
  else if id = 7 then
    Except.ok InstructionSource.Accumulator
  else
    Except.error "Unknown InstructionSource ID"

/-- `InstructionSource::n_bytes` (errors on `Sum` and `Value`, as in the
source). -/
def InstructionSource.nBytes : InstructionSource → Except String Nat
  | InstructionSource.Memory _ size => Except.ok size.nBytes
  | InstructionSource.Register reg => Except.ok reg.nBytes
  | InstructionSource.Accumulator => Except.ok 1
  | _ => Except.error ""

/-- `Instruction` — the typed instruction record. -/
inductive Instruction where
  | Nop
  | Load (dest : InstructionSource)
  | Store (source : InstructionSource)
  | Increment (source : InstructionSource)
  | Decrement (source : InstructionSource)
  | Move (dest source : InstructionSource)
  | RotateLeft (source : InstructionSource)
  | RotateLeftThroughCarry (source : InstructionSource)
  | RotateRight (source : InstructionSource)
  | RotateRightThroughCarry (source : InstructionSource)
  | DecimalAdjust (source : InstructionSource)
  | Complement (source : InstructionSource)
  | SetCarry
  | ComplementCarry
  | Halt
  | Add (a b : InstructionSource)
  | AddWithCarry (a b : InstructionSource)
  | Subtract (a b : InstructionSource)
  | SubtractWithBorrow (a b : InstructionSource)
  | BitwiseAnd (a b : InstructionSource)
  | BitwiseXor (a b : InstructionSource)
  | BitwiseOr (a b : InstructionSource)
  | Comparison (a b : InstructionSource)
  | ReturnConditional (condition : InstructionCondition)
  | StackPop (dest : InstructionSource)
  | JumpConditional (condition : InstructionCondition)
  | Jump
  | CallConditional (condition : InstructionCondition)
  | StackPush (source : InstructionSource)
  | Reset (n : InstructionSource)
  | Return
  | Call
  | IoOut
  | IoIn
  | Exchange (a b : InstructionSource)
  | DisableInterrupts
  | EnableInterrupts
deriving DecidableEq, Repr

/-- `Instruction::alu_instr_from_id`. -/
def Instruction.aluInstrFromId (alu : Nat) (srcA srcB : InstructionSource) :
    Except String Instruction :=
  match alu with
  | 0 => Except.ok (Instruction.Add srcA srcB)
  | 1 => Except.ok (Instruction.AddWithCarry srcA srcB)
  | 2 => Except.ok (Instruction.Subtract srcA srcB)
  | 3 => Except.ok (Instruction.SubtractWithBorrow srcA srcB)
  | 4 => Except.ok (Instruction.BitwiseAnd srcA srcB)
  | 5 => Except.ok (Instruction.BitwiseXor srcA srcB)
  | 6 => Except.ok (Instruction.BitwiseOr srcA srcB)
  | 7 => Except.ok (Instruction.Comparison srcA srcB)
  | _ => Except.error "Unknown ALU operation ID"

/-- `Instruction::decode` — the full opcode decoder.  The match arms appear
in exactly the order of the Rust `match` on the bit array (first match
wins), including the comment text of each arm. -/
def Instruction.decode (instruction : RegisterValue) : Except String Instruction := do
  let instruction ← instruction.toU8
  let rp := (instruction &&& 0x30) >>> 4   -- instruction[5:4]
  let ddd := (instruction &&& 0x38) >>> 3  -- instruction[5:3]
  let sss := instruction &&& 0x07          -- instruction[2:0]
  match getBits instruction with
  -- NOP
  | (0, 0, 0, 0, 0, 0, 0, 0) => Except.ok Instruction.Nop
  -- LXI rp, data: RP <- immediate
  | (0, 0, _, _, 0, 0, 0, 1) => do
    Except.ok (Instruction.Move
      (InstructionSource.Register (← Register.fromRpId rp))
      (InstructionSource.Memory MemorySource.ProgramCounter MemorySize.integer16))
  -- SHLD addr: (addr) <- HL
  | (0, 0, 1, 0, 0, 0, 1, 0) =>
    Except.ok (Instruction.Store (InstructionSource.Register Register.HL))
  -- STA addr: (addr) <- A
  | (0, 0, 1, 1, 0, 0, 1, 0) =>
    Except.ok (Instruction.Store InstructionSource.Accumulator)
  -- STAX rp: (RP) <- A [BC or DE only]
  | (0, 0, _, _, 0, 0, 1, 0) => do
    let regPair ← Register.fromRpId rp
    if regPair ≠ Register.BC ∧ regPair ≠ Register.DE then
      Except.error "STAX is only valid for BC or DE"
    else
      Except.ok (Instruction.Move
        (InstructionSource.Memory (MemorySource.Register regPair) MemorySize.integer16)
        (InstructionSource.Register regPair))
  -- INX rp: RP <- RP + 1
  | (0, 0, _, _, 0, 0, 1, 1) => do
    Except.ok (Instruction.Increment (InstructionSource.Register (← Register.fromRpId rp)))
  -- INR ddd: DDD <- DDD + 1
  | (0, 0, _, _, _, 1, 0, 0) => do
    Except.ok (Instruction.Increment (← InstructionSource.fromId ddd))
  -- DCR ddd: DDD <- DDD - 1
  | (0, 0, _, _, _, 1, 0, 1) => do
    Except.ok (Instruction.Decrement (← InstructionSource.fromId ddd))
  -- MVI ddd, data: DDD <- immediate
  | (0, 0, _, _, _, 1, 1, 0) => do
    Except.ok (Instruction.Move (← InstructionSource.fromId ddd)
      (InstructionSource.Memory MemorySource.ProgramCounter MemorySize.integer8))
  -- DAD rp: HL <- HL + RP
  | (0, 0, _, _, 1, 0, 0, 1) => do
    Except.ok (Instruction.Move
      (InstructionSource.Register Register.HL)
      (InstructionSource.Sum
        (InstructionSource.Register Register.HL)
        (InstructionSource.Register (← Register.fromRpId rp))))
  -- LHLD addr: HL <- (addr)
  | (0, 0, 1, 0, 1, 0, 1, 0) =>
    Except.ok (Instruction.Load (InstructionSource.Register Register.HL))
  -- LDA addr, A <- (addr)
  | (0, 0, 1, 1, 1, 0, 1, 0) =>
    Except.ok (Instruction.Load InstructionSource.Accumulator)
  -- LDAX rp: A <- (RP) [BC or DE only]
  | (0, 0, _, _, 1, 0, 1, 0) => do
    let regPair ← Register.fromRpId rp
    if regPair ≠ Register.BC ∧ regPair ≠ Register.DE then
      Except.error "LDAX is only valid for BC or DE"
    else
      Except.ok (Instruction.Move
        InstructionSource.Accumulator
        (InstructionSource.Memory (MemorySource.Register regPair) MemorySize.integer8))
  -- DCX rp: RP <- RP - 1
  | (0, 0, _, _, 1, 0, 1, 1) => do
    Except.ok (Instruction.Decrement (InstructionSource.Register (← Register.fromRpId rp)))
  -- RLC: rotate A left through carry   [sic — the source comment]
  | (0, 0, 0, 0, 0, 1, 1, 1) =>
    Except.ok (Instruction.RotateLeftThroughCarry InstructionSource.Accumulator)
  -- RRC: rotate A right through carry  [sic — the source comment]
  | (0, 0, 0, 0, 1, 1, 1, 1) =>
    Except.ok (Instruction.RotateRightThroughCarry InstructionSource.Accumulator)
  -- RAL: rotate A left                 [sic — the source comment]
  | (0, 0, 0, 1, 0, 1, 1, 1) =>
    Except.ok (Instruction.RotateLeft InstructionSource.Accumulator)
  -- RAL: rotate A right                [sic — the source comment]
  | (0, 0, 0, 1, 1, 1, 1, 1) =>
    Except.ok (Instruction.RotateRight InstructionSource.Accumulator)
  -- DAA: decimal adjust A
  | (0, 0, 1, 0, 0, 1, 1, 1) =>
    Except.ok (Instruction.DecimalAdjust InstructionSource.Accumulator)
  -- CMA: complement A
  | (0, 0, 1, 0, 1, 1, 1, 1) =>
    Except.ok (Instruction.Complement InstructionSource.Accumulator)
  -- STC: set carry
  | (0, 0, 1, 1, 0, 1, 1, 1) => Except.ok Instruction.SetCarry
  -- CMC: complement carry
  | (0, 0, 1, 1, 1, 1, 1, 1) => Except.ok Instruction.ComplementCarry
  -- HLT: halt
  | (0, 1, 1, 1, 0, 1, 1, 0) => Except.ok Instruction.Halt
  -- MOV ddd,sss: DDD <- SSS
  | (0, 1, _, _, _, _, _, _) => do
    Except.ok (Instruction.Move (← InstructionSource.fromId ddd) (← InstructionSource.fromId sss))
  -- A <- A [ALU operation] SSS
  | (1, 0, _, _, _, _, _, _) => do
    let srcA := InstructionSource.Accumulator
    let srcB ← InstructionSource.fromId sss
    Instruction.aluInstrFromId ddd srcA srcB
  -- Rcc: if cc true, return
  | (1, 1, _, _, _, 0, 0, 0) => do
    Except.ok (Instruction.ReturnConditional (← InstructionCondition.fromId ddd))
  -- POP rp: pops value from stack into RP
  | (1, 1, _, _, 0, 0, 0, 1) => do
    let regPair ← Register.fromRpId rp
    let regPair := if regPair = Register.SP then Register.PSW else regPair
    Except.ok (Instruction.StackPop (InstructionSource.Register regPair))
  -- Jcc addr: if cc true, jump to addr (PC <- addr)
  | (1, 1, _, _, _, 0, 1, 0) => do
    Except.ok (Instruction.JumpConditional (← InstructionCondition.fromId ddd))
  -- JMP addr: PC <- addr
  | (1, 1, 0, 0, 0, 0, 1, 1) => Except.ok Instruction.Jump
  -- Ccc addr: if cc true, call addr (push PC, set PC <- addr)
  | (1, 1, _, _, _, 1, 0, 0) => do
    Except.ok (Instruction.CallConditional (← InstructionCondition.fromId ddd))
  -- PUSH rp: push RP into stack
  | (1, 1, _, _, 0, 1, 0, 1) => do
    let regPair ← Register.fromRpId rp
    let regPair := if regPair = Register.SP then Register.PSW else regPair
    Except.ok (Instruction.StackPush (InstructionSource.Register regPair))
  -- A <- A [ALU operation] immediate
  | (1, 1, _, _, _, 1, 1, 0) => do
    let srcA := InstructionSource.Accumulator
    let srcB := InstructionSource.Memory MemorySource.ProgramCounter MemorySize.integer8
    Instruction.aluInstrFromId ddd srcA srcB
  -- RST n: pushes PC to stack, PC <- n * 8   [the comment; see `Cpu.execute`]
  | (1, 1, _, _, _, 1, 1, 1) =>
    Except.ok (Instruction.Reset (InstructionSource.Value (RegisterValue.integer16 ddd)))
  -- RET: PC <- (SP)
  | (1, 1, 0, 0, 1, 0, 0, 1) => Except.ok Instruction.Return
  -- CALL addr: pushes PC to stack, PC <- addr
  | (1, 1, 0, 0, 1, 1, 0, 1) => Except.ok Instruction.Call
  -- OUT port: Port <- A
  | (1, 1, 0, 1, 0, 0, 1, 1) => Except.ok Instruction.IoOut
  -- IN port: A <- Port
  | (1, 1, 0, 1, 1, 0, 1, 1) => Except.ok Instruction.IoIn
  -- XTHL: HL <-> (SP)
  | (1, 1, 1, 0, 0, 0, 1, 1) =>
    Except.ok (Instruction.Exchange
      (InstructionSource.Register Register.HL)
      (InstructionSource.Memory (MemorySource.Register Register.SP) MemorySize.integer16))
  -- PCHL: PC <-> HL
  | (1, 1, 1, 0, 1, 0, 0, 1) =>
    Except.ok (Instruction.Exchange
      (InstructionSource.Register Register.PC)
      (InstructionSource.Register Register.HL))
  -- XCHG: HL <-> DE
  | (1, 1, 1, 0, 1, 0, 1, 1) =>
    Except.ok (Instruction.Exchange
      (InstructionSource.Register Register.HL)
      (InstructionSource.Register Register.DE))
  -- DI: disable interrupts
  | (1, 1, 1, 1, 0, 0, 1, 1) => Except.ok Instruction.DisableInterrupts
  -- SPHL: SP <- HL
  | (1, 1, 1, 1, 1, 0, 0, 1) =>
    Except.ok (Instruction.Move
      (InstructionSource.Register Register.SP)
      (InstructionSource.Register Register.HL))
  -- EI: enable interrupts
  | (1, 1, 1, 1, 1, 0, 1, 1) => Except.ok Instruction.EnableInterrupts
  -- unknown/unsupported instruction code
  | _ => Except.error "Unknown or unsupported instruction"

/- ------------------------------------------------------------------ -/
/- `src/cpu.rs`: the execution engine                                  -/
/- ------------------------------------------------------------------ -/

/-- `CPU_INSTRUCTION_CLOCK_CYCLES` — base clock cycles per opcode
(conditional call/return add 6 when the branch is taken). -/
def cpuInstructionClockCycles : List Nat := [
  4, 10, 7, 5, 5, 5, 7, 4, 4, 10, 7, 5, 5, 5, 7, 4,
  4, 10, 7, 5, 5, 5, 7, 4, 4, 10, 7, 5, 5, 5, 7, 4,
  4, 10, 16, 5, 5, 5, 7, 4, 4, 10, 16, 5, 5, 5, 7, 4,
  4, 10, 13, 5, 10, 10, 10, 4, 4, 10, 13, 5, 5, 5, 7, 4,
  5, 5, 5, 5, 5, 5, 7, 5, 5, 5, 5, 5, 5, 5, 7, 5,
  5, 5, 5, 5, 5, 5, 7, 5, 5, 5, 5, 5, 5, 5, 7, 5,
  5, 5, 5, 5, 5, 5, 7, 5, 5, 5, 5, 5, 5, 5, 7, 5,
  7, 7, 7, 7, 7, 7, 7, 7, 5, 5, 5, 5, 5, 5, 7, 5,
  4, 4, 4, 4, 4, 4, 7, 4, 4, 4, 4, 4, 4, 4, 7, 4,
  4, 4, 4, 4, 4, 4, 7, 4, 4, 4, 4, 4, 4, 4, 7, 4,
  4, 4, 4, 4, 4, 4, 7, 4, 4, 4, 4, 4, 4, 4, 7, 4,
  4, 4, 4, 4, 4, 4, 7, 4, 4, 4, 4, 4, 4, 4, 7, 4,
  5, 10, 10, 10, 11, 11, 7, 11, 5, 10, 10, 10, 11, 17, 7, 11,
  5, 10, 10, 10, 11, 11, 7, 11, 5, 10, 10, 10, 11, 17, 7, 11,
  5, 10, 10, 18, 11, 11, 7, 11, 5, 5, 10, 4, 11, 17, 7, 11,
  5, 10, 10, 4, 11, 11, 7, 11, 5, 5, 10, 4, 11, 17, 7, 11]

/-- `Cpu` — the whole machine.  The host-installed port-write callback and
the subroutine-interception map are external collaborators; this model
covers a CPU with no callback and no handlers installed (the state
`Cpu::new` starts from), so `CALL` always takes its normal push-and-jump
path and `OUT` only records the value in the port array. -/
structure Cpu where
  running : Bool
  interruptsEnabled : Bool
  regArray : RegisterArray
  alu : Alu
  memory : Memory
  ports : Nat → RegisterValue
  totalCycles : Nat

/-- `Cpu::new`. -/
def Cpu.new : Cpu :=
  { running := true
    interruptsEnabled := true
    regArray := RegisterArray.new
    alu := Alu.new
    memory := Memory.new
    ports := fun _ => RegisterValue.integer8 0
    totalCycles := 0 }

/-- `Cpu::read_next` — read a value at PC and advance PC (wrapping). -/
def Cpu.readNext (cpu : Cpu) (size : MemorySize) :
    Except String (RegisterValue × Cpu) := do
  let pcVal := cpu.regArray.readReg Register.PC
  let value ← cpu.memory.read pcVal size
  let newPcVal := (pcVal.toU16 + size.nBytes) % 65536
  let regArray ← cpu.regArray.writeReg Register.PC (RegisterValue.integer16 newPcVal)
  Except.ok (value, { cpu with regArray })

/-- `Cpu::decode_next_instruction`. -/
def Cpu.decodeNextInstruction (cpu : Cpu) :
    Except String (Nat × Instruction × Cpu) := do
  let r ← cpu.readNext MemorySize.integer8
  let opcode ← r.1.toU8
  let instruction ← Instruction.decode r.1
  Except.ok (opcode, instruction, r.2)

/-- `Cpu::evaluate_source` — evaluate an `InstructionSource`; reading
through the program counter advances PC.  The `Sum` case goes through
`RegisterValue::try_add`, hence the fuel. -/
def Cpu.evaluateSource (fuel : Nat) (cpu : Cpu) :
    InstructionSource → Res (RegisterValue × Cpu)
  | InstructionSource.Memory memorySource size =>
    match memorySource with
    | MemorySource.Address addr => do
      let v ← Res.liftE (cpu.memory.read addr size)
      Res.ok (v, cpu)
    | MemorySource.Register register => do
      let addr := cpu.regArray.readReg register
      let v ← Res.liftE (cpu.memory.read addr size)
      Res.ok (v, cpu)
    | MemorySource.ProgramCounter => Res.liftE (cpu.readNext size)
  | InstructionSource.Register register =>
    Res.ok (cpu.regArray.readReg register, cpu)
  | InstructionSource.Accumulator => Res.ok (cpu.alu.accumulator, cpu)
  | InstructionSource.Sum source1 source2 => do
    let r1 ← cpu.evaluateSource fuel source1
    let r2 ← r1.2.evaluateSource fuel source2
    let v ← RegisterValue.tryAdd fuel r1.1 r2.1
    Res.ok (v, r2.2)
  | InstructionSource.Value value => Res.ok (value, cpu)

/-- `Cpu::write_to_source` — write a value to a writable operand; writing
the PSW register also refreshes A and the flag booleans in the ALU. -/
def Cpu.writeToSource (cpu : Cpu) (source : InstructionSource)
    (value : RegisterValue) : Except String Cpu :=
  match source with
  | InstructionSource.Memory memorySource size =>
    if value.nBytes ≠ size.nBytes then
      Except.error "Attempted to write a value of mismatched size to a memory address"
    else do
      let addr ← match memorySource with
        | MemorySource.Address addr => Except.ok addr
        | MemorySource.Register register => Except.ok (cpu.regArray.readReg register)
        | MemorySource.ProgramCounter => Except.error "Attempted to write to value at PC"
      let memory ← cpu.memory.write addr value
      Except.ok { cpu with memory }
  | InstructionSource.Register register => do
    let regArray ← cpu.regArray.writeReg register value
    let cpu := { cpu with regArray }
    if register = Register.PSW then do
      let v := value.toU16
      let a := (v >>> 8) &&& 0xFF
      let f := v &&& 0xFF
      let alu ← cpu.alu.writeAccumulator (RegisterValue.integer8 a)
      let flags ← AluFlags.fromF (RegisterValue.integer8 f)
      Except.ok { cpu with alu := alu.writeFlags flags }
    else
      Except.ok cpu
  | InstructionSource.Accumulator => do
    let alu ← cpu.alu.writeAccumulator value
    Except.ok { cpu with alu }
  | _ => Except.error "Tried to write to an unwriteable InstructionSource variant"

/-- `Cpu::update_status_word` — rewrite the PSW register pair from the
current accumulator and flags (`F = S Z 0 AC 0 P 1 C`). -/
def Cpu.updateStatusWord (cpu : Cpu) : Except String Cpu := do
  let a ← cpu.alu.accumulator.toU8
  let flags := cpu.alu.flags
  let f := fromBits (if flags.sign then 1 else 0) (if flags.zero then 1 else 0) 0
    (if flags.auxCarry then 1 else 0) 0 (if flags.parity then 1 else 0) 1
    (if flags.carry then 1 else 0)
  let psw := combineValues a f
  let regArray ← cpu.regArray.writeReg Register.PSW (RegisterValue.integer16 psw)
  Except.ok { cpu with regArray }

/-- `Cpu::push_to_stack` — decrement SP by the value's size (via
`try_add` with the size's wrapping negation) and write the value at the
new SP. -/
def Cpu.pushToStack (fuel : Nat) (cpu : Cpu) (value : RegisterValue) : Res Cpu := do
  let valueSize := value.nBytes
  let spDecrement := RegisterValue.integer16 ((65536 - valueSize) % 65536)
  let spVal := cpu.regArray.readReg Register.SP
  let spVal ← RegisterValue.tryAdd fuel spVal spDecrement
  let regArray ← Res.liftE (cpu.regArray.writeReg Register.SP spVal)
  let memory ← Res.liftE (cpu.memory.write spVal value)
  Res.ok { cpu with regArray, memory }

/-- `Cpu::pop_from_stack` — read at SP, then increment SP by the size. -/
def Cpu.popFromStack (fuel : Nat) (cpu : Cpu) (size : MemorySize) :
    Res (RegisterValue × Cpu) := do
  let spVal := cpu.regArray.readReg Register.SP
  let value ← Res.liftE (cpu.memory.read spVal size)
  let spIncrement := RegisterValue.integer16 size.nBytes
  let spVal ← RegisterValue.tryAdd fuel spVal spIncrement
  let regArray ← Res.liftE (cpu.regArray.writeReg Register.SP spVal)
  Res.ok (value, { cpu with regArray })

/-- `Cpu::write_to_port` (no host callback installed in this model). -/
def Cpu.writeToPort (cpu : Cpu) (port value : RegisterValue) : Except String Cpu :=
  if port.nBytes ≠ 1 ∨ value.nBytes ≠ 1 then
    Except.error "Port IDs and port values are 8 bits"
  else do
    let portId ← port.toU8
    Except.ok { cpu with ports := fun p => if p = portId then value else cpu.ports p }

/-- `Cpu::read_port`. -/
def Cpu.readPort (cpu : Cpu) (port : RegisterValue) : Except String RegisterValue :=
  if port.nBytes ≠ 1 then
    Except.error "Port IDs are 8 bits"
  else do
    let portId ← port.toU8
    Except.ok (cpu.ports portId)

/-- Modelled from the spec: `AluOperation::from_instruction` is called by
the engine's ALU-family arm but its definition is not among the sources.
Per §4.5, "the engine assembles an `AluOperation` with the accumulator as
one input and the decoded source as the other (or the sole input for unary
ops)": each ALU-family `Instruction` variant maps to the `AluOperation`
variant of the same name, with its operands evaluated by
`Cpu::evaluate_source` (left operand first; an immediate operand advances
PC). -/
def AluOperation.fromInstruction (fuel : Nat) (cpu : Cpu) :
    Instruction → Res (AluOperation × Cpu)
  | Instruction.RotateLeft src => do
    let r ← cpu.evaluateSource fuel src
    Res.ok (AluOperation.RotateLeft r.1, r.2)
  | Instruction.RotateRight src => do
    let r ← cpu.evaluateSource fuel src
    Res.ok (AluOperation.RotateRight r.1, r.2)
  | Instruction.RotateLeftThroughCarry src => do
    let r ← cpu.evaluateSource fuel src
    Res.ok (AluOperation.RotateLeftThroughCarry r.1, r.2)
  | Instruction.RotateRightThroughCarry src => do
    let r ← cpu.evaluateSource fuel src
    Res.ok (AluOperation.RotateRightThroughCarry r.1, r.2)
  | Instruction.DecimalAdjust src => do
    let r ← cpu.evaluateSource fuel src
    Res.ok (AluOperation.DecimalAdjust r.1, r.2)
  | Instruction.Complement src => do
    let r ← cpu.evaluateSource fuel src
    Res.ok (AluOperation.Complement r.1, r.2)
  | Instruction.Add a b => do
    let ra ← cpu.evaluateSource fuel a
    let rb ← ra.2.evaluateSource fuel b
    Res.ok (AluOperation.Add ra.1 rb.1, rb.2)
  | Instruction.AddWithCarry a b => do
    let ra ← cpu.evaluateSource fuel a
    let rb ← ra.2.evaluateSource fuel b
    Res.ok (AluOperation.AddCarry ra.1 rb.1, rb.2)
  | Instruction.Subtract a b => do
    let ra ← cpu.evaluateSource fuel a
    let rb ← ra.2.evaluateSource fuel b
    Res.ok (AluOperation.Sub ra.1 rb.1, rb.2)
  | Instruction.SubtractWithBorrow a b => do
    let ra ← cpu.evaluateSource fuel a
    let rb ← ra.2.evaluateSource fuel b
    Res.ok (AluOperation.SubBorrow ra.1 rb.1, rb.2)
  | Instruction.BitwiseAnd a b => do
    let ra ← cpu.evaluateSource fuel a
    let rb ← ra.2.evaluateSource fuel b
    Res.ok (AluOperation.BitwiseAnd ra.1 rb.1, rb.2)
  | Instruction.BitwiseXor a b => do
    let ra ← cpu.evaluateSource fuel a
    let rb ← ra.2.evaluateSource fuel b
    Res.ok (AluOperation.BitwiseXor ra.1 rb.1, rb.2)
  | Instruction.BitwiseOr a b => do
    let ra ← cpu.evaluateSource fuel a
    let rb ← ra.2.evaluateSource fuel b
    Res.ok (AluOperation.BitwiseOr ra.1 rb.1, rb.2)
  | Instruction.Comparison a b => do
    let ra ← cpu.evaluateSource fuel a
    let rb ← ra.2.evaluateSource fuel b
    Res.ok (AluOperation.Comparison ra.1 rb.1, rb.2)
  | Instruction.SetCarry => Res.ok (AluOperation.SetCarry, cpu)
  | Instruction.ComplementCarry => Res.ok (AluOperation.ComplementCarry, cpu)
  | _ => Res.err "Not an ALU instruction"

/-- `Cpu::execute` — dispatch one decoded instruction.  Returns the
updated CPU and the cycles consumed (base cycles, plus 6 for a taken
conditional call/return).  Follows the Rust arm-by-arm; the inner match
yields the extra cycles of the arm. -/
def Cpu.execute (fuel : Nat) (cpu : Cpu) (opcode : Nat)
    (instruction : Instruction) : Res (Cpu × Nat) := do
  let cycles := cpuInstructionClockCycles.getD opcode 0
  let cpu ← Res.liftE cpu.updateStatusWord
  let s : Cpu × Nat ← (match instruction with
    -- no operation, do nothing
    | Instruction.Nop => Res.ok (cpu, 0)
    -- loads a value from the immediate address to the destination
    | Instruction.Load dest => do
      let r ← Res.liftE (cpu.readNext MemorySize.integer16)
      let addr := r.1
      let cpu := r.2
      let nb ← Res.liftE dest.nBytes
      let immSize ← Res.liftE (MemorySize.fromBytes nb)
      let immVal ← Res.liftE (cpu.memory.read addr immSize)
      let cpu ← Res.liftE (cpu.writeToSource dest immVal)
      Res.ok (cpu, 0)
    -- stores a value to an immediate address
    | Instruction.Store source => do
      let nb ← Res.liftE source.nBytes
      let srcSize ← Res.liftE (MemorySize.fromBytes nb)
      let r ← Res.liftE (cpu.readNext MemorySize.integer16)
      let dest := InstructionSource.Memory (MemorySource.Address r.1) srcSize
      let rv ← r.2.evaluateSource fuel source
      let cpu ← Res.liftE (rv.2.writeToSource dest rv.1)
      Res.ok (cpu, 0)
    -- increments a value
    | Instruction.Increment source => do
      let nb ← Res.liftE source.nBytes
      let srcSize ← Res.liftE (MemorySize.fromBytes nb)
      if (srcSize == MemorySize.integer8 &&
            (match source with | InstructionSource.Register _ => true | _ => false)) ||
          source == InstructionSource.Accumulator then do
        -- use ALU for 8-bit registers
        let rv ← cpu.evaluateSource fuel source
        let er ← rv.2.alu.evaluate (AluOperation.Increment rv.1)
        match er.1 with
        | some result => do
          let cpu ← Res.liftE ({ rv.2 with alu := er.2 }.writeToSource source result)
          Res.ok (cpu, 0)
        | none => Res.div      -- `.unwrap()` on `None` aborts
      else do
        -- increment manually
        let rhs := match srcSize with
          | MemorySize.integer8 => RegisterValue.integer8 1
          | MemorySize.integer16 => RegisterValue.integer16 1
        let sum := InstructionSource.Sum source (InstructionSource.Value rhs)
        let rv ← cpu.evaluateSource fuel sum
        let cpu ← Res.liftE (rv.2.writeToSource source rv.1)
        Res.ok (cpu, 0)
    -- decrements a value
    | Instruction.Decrement source => do
      let nb ← Res.liftE source.nBytes
      let srcSize ← Res.liftE (MemorySize.fromBytes nb)
      if (srcSize == MemorySize.integer8 &&
            (match source with | InstructionSource.Register _ => true | _ => false)) ||
          source == InstructionSource.Accumulator then do
        -- use ALU for 8-bit registers
        let rv ← cpu.evaluateSource fuel source
        let er ← rv.2.alu.evaluate (AluOperation.Decrement rv.1)
        match er.1 with
        | some result => do
          let cpu ← Res.liftE ({ rv.2 with alu := er.2 }.writeToSource source result)
          Res.ok (cpu, 0)
        | none => Res.div      -- `.unwrap()` on `None` aborts
      else do
        -- decrement manually (adds the wrapping negation of one)
        let rhs := match srcSize with
          | MemorySize.integer8 => RegisterValue.integer8 0xFF
          | MemorySize.integer16 => RegisterValue.integer16 0xFFFF
        let sum := InstructionSource.Sum source (InstructionSource.Value rhs)
        let rv ← cpu.evaluateSource fuel sum
        let cpu ← Res.liftE (rv.2.writeToSource source rv.1)
        Res.ok (cpu, 0)
    -- moves a value to another place
    | Instruction.Move dest source => do
      let rv ← cpu.evaluateSource fuel source
      let cpu ← Res.liftE (rv.2.writeToSource dest rv.1)
      Res.ok (cpu, 0)
    -- ALU operations
    | Instruction.RotateLeft _ | Instruction.RotateRight _
    | Instruction.RotateLeftThroughCarry _ | Instruction.RotateRightThroughCarry _
    | Instruction.DecimalAdjust _ | Instruction.Complement _
    | Instruction.Add _ _ | Instruction.AddWithCarry _ _
    | Instruction.Subtract _ _ | Instruction.SubtractWithBorrow _ _
    | Instruction.BitwiseAnd _ _ | Instruction.BitwiseXor _ _
    | Instruction.BitwiseOr _ _ | Instruction.Comparison _ _
    | Instruction.SetCarry | Instruction.ComplementCarry => do
      let ro ← AluOperation.fromInstruction fuel cpu instruction
      let er ← ro.2.alu.evaluate ro.1
      let cpu := { ro.2 with alu := er.2 }
      match er.1 with
      | some result => do
        let alu ← Res.liftE (cpu.alu.writeAccumulator result)
        Res.ok ({ cpu with alu }, 0)
      | none => Res.ok (cpu, 0)
    -- conditional return
    | Instruction.ReturnConditional condition =>
      if cpu.alu.flags.evaluateCondition condition then do
        let rv ← cpu.popFromStack fuel MemorySize.integer16
        let regArray ← Res.liftE (rv.2.regArray.writeReg Register.PC rv.1)
        Res.ok ({ rv.2 with regArray }, 6)
      else
        Res.ok (cpu, 0)
    -- halt the processor
    | Instruction.Halt => Res.ok ({ cpu with running := false }, 0)
    -- stack pop
    | Instruction.StackPop dest => do
      let nb ← Res.liftE dest.nBytes
      let popSize ← Res.liftE (MemorySize.fromBytes nb)
      let rv ← cpu.popFromStack fuel popSize
      let cpu ← Res.liftE (rv.2.writeToSource dest rv.1)
      Res.ok (cpu, 0)
    -- conditional jump
    | Instruction.JumpConditional condition => do
      let r ← Res.liftE (cpu.readNext MemorySize.integer16)
      if r.2.alu.flags.evaluateCondition condition then do
        let regArray ← Res.liftE (r.2.regArray.writeReg Register.PC r.1)
        Res.ok ({ r.2 with regArray }, 0)
      else
        Res.ok (r.2, 0)
    -- unconditional jump (jumping to address 0 terminates execution)
    | Instruction.Jump => do
      let r ← Res.liftE (cpu.readNext MemorySize.integer16)
      if r.1.toU16 = 0 then
        Res.ok ({ r.2 with running := false }, 0)
      else do
        let regArray ← Res.liftE (r.2.regArray.writeReg Register.PC r.1)
        Res.ok ({ r.2 with regArray }, 0)
    -- conditional call
    | Instruction.CallConditional condition => do
      let r ← Res.liftE (cpu.readNext MemorySize.integer16)
      if r.2.alu.flags.evaluateCondition condition then do
        let pcVal := r.2.regArray.readReg Register.PC
        let cpu ← r.2.pushToStack fuel pcVal
        let regArray ← Res.liftE (cpu.regArray.writeReg Register.PC r.1)
        Res.ok ({ cpu with regArray }, 6)
      else
        Res.ok (r.2, 0)
    -- push to stack
    | Instruction.StackPush source => do
      let rv ← cpu.evaluateSource fuel source
      let cpu ← rv.2.pushToStack fuel rv.1
      Res.ok (cpu, 0)
    -- reset: PC <- n * 8 (note: no push of PC happens here)
    | Instruction.Reset n => do
      let rv ← cpu.evaluateSource fuel n
      let newPc := RegisterValue.integer16 (rv.1.toU16 * 8)
      let regArray ← Res.liftE (rv.2.regArray.writeReg Register.PC newPc)
      Res.ok ({ rv.2 with regArray }, 0)
    -- unconditional return
    | Instruction.Return => do
      let rv ← cpu.popFromStack fuel MemorySize.integer16
      let regArray ← Res.liftE (rv.2.regArray.writeReg Register.PC rv.1)
      Res.ok ({ rv.2 with regArray }, 0)
    -- unconditional call (no subroutine handlers installed in this model,
    -- so the interception branch is never taken)
    | Instruction.Call => do
      let r ← Res.liftE (cpu.readNext MemorySize.integer16)
      let pcVal := r.2.regArray.readReg Register.PC
      let cpu ← r.2.pushToStack fuel pcVal
      let regArray ← Res.liftE (cpu.regArray.writeReg Register.PC r.1)
      Res.ok ({ cpu with regArray }, 0)
    -- IO output
    | Instruction.IoOut => do
      let r ← Res.liftE (cpu.readNext MemorySize.integer8)
      let aVal := r.2.alu.accumulator
      let cpu ← Res.liftE (r.2.writeToPort r.1 aVal)
      Res.ok (cpu, 0)
    -- IO input
    | Instruction.IoIn => do
      let r ← Res.liftE (cpu.readNext MemorySize.integer8)
      let portVal ← Res.liftE (r.2.readPort r.1)
      let alu ← Res.liftE (r.2.alu.writeAccumulator portVal)
      Res.ok ({ r.2 with alu }, 0)
    -- exchange instruction
    | Instruction.Exchange srcA srcB => do
      let ra ← cpu.evaluateSource fuel srcA
      let rb ← ra.2.evaluateSource fuel srcB
      let cpu ← Res.liftE (rb.2.writeToSource srcA rb.1)
      let cpu ← Res.liftE (cpu.writeToSource srcB ra.1)
      Res.ok (cpu, 0)
    -- disable interrupts
    | Instruction.DisableInterrupts => Res.ok ({ cpu with interruptsEnabled := false }, 0)
    -- enable interrupts
    | Instruction.EnableInterrupts => Res.ok ({ cpu with interruptsEnabled := true }, 0))
  let cpu := s.1
  let cycles := cycles + s.2
  -- update the status word again
  let cpu ← Res.liftE cpu.updateStatusWord
  if cycles ≠ 0 then
    Res.ok ({ cpu with totalCycles := cpu.totalCycles + cycles }, cycles)
  else
    Res.err "Clock cycles taken by an instruction must not be 0"

/-- `Cpu::execute_next` — when running, fetch/decode/execute one
instruction; otherwise return zero cycles without touching the state. -/
def Cpu.executeNext (fuel : Nat) (cpu : Cpu) : Res (Cpu × Nat) :=
  if cpu.running then do
    let d ← Res.liftE cpu.decodeNextInstruction
    Cpu.execute fuel d.2.2 d.1 d.2.1
  else
    Res.ok (cpu, 0)

/-- The `while self.total_cycles <= target_cycles` loop of
`Cpu::execute_cycles`, with fuel bounding the number of iterations
(`Res.div` when the fuel runs out, i.e. the loop did not finish within
`fuel` iterations). -/
def Cpu.executeCyclesLoop : Nat → Cpu → Nat → Res (Cpu × Nat)
  | 0, _, _ => Res.div
  | fuel + 1, cpu, targetCycles =>
    if cpu.totalCycles ≤ targetCycles then do
      let r ← cpu.executeNext fuel
      Cpu.executeCyclesLoop fuel r.1 targetCycles
    else
      Res.ok (cpu, cpu.totalCycles - targetCycles)

/-- `Cpu::execute_cycles` — record a target of `total_cycles + cycles`,
loop until the total exceeds it, and return the overshoot. -/
def Cpu.executeCycles (fuel : Nat) (cpu : Cpu) (cycles : Nat) : Res (Cpu × Nat) :=
  Cpu.executeCyclesLoop fuel cpu (cpu.totalCycles + cycles)

/- ------------------------------------------------------------------ -/
/- Generic lemmas about `Res`                                          -/
/- ------------------------------------------------------------------ -/

theorem Res.ok_bind {α β : Type} (a : α) (k : α → Res β) : (Res.ok a >>= k) = k a := rfl

theorem Res.err_bind {α β : Type} (e : String) (k : α → Res β) :
    ((Res.err e : Res α) >>= k) = Res.err e := rfl

theorem Res.div_bind {α β : Type} (k : α → Res β) :
    ((Res.div : Res α) >>= k) = Res.div := rfl

theorem Res.run_bind {α β : Type} (x : Res α) (f : α → Res β) :
    ExceptT.run (x >>= f) = (match ExceptT.run x with
      | some (Except.ok a) => ExceptT.run (f a)
      | some (Except.error e) => some (Except.error e)
      | none => none) := by
  have hx : x = ExceptT.mk (ExceptT.run x) := rfl
  rcases h : ExceptT.run x with _ | e
  · rw [hx, h]; rfl
  · rcases e with e | a
    · rw [hx, h]; rfl
    · rw [hx, h]; rfl

/- ------------------------------------------------------------------ -/
/- Observations on run results                                         -/
/- ------------------------------------------------------------------ -/

/-- Extract the `Ok` payload of a `Res` outcome, if any. -/
def runOk {α : Type} (r : Res α) : Option α :=
  match ExceptT.run r with
  | some (Except.ok a) => some a
  | _ => none

/-- Program counter of a successful step. -/
def runPC (r : Res (Cpu × Nat)) : Option Nat := (runOk r).map fun p => p.1.regArray.programCounter

/-- Stack pointer of a successful step. -/
def runSP (r : Res (Cpu × Nat)) : Option Nat := (runOk r).map fun p => p.1.regArray.stackPointer

/-- Running flag of a successful step. -/
def runRunning (r : Res (Cpu × Nat)) : Option Bool := (runOk r).map fun p => p.1.running

/-- Accumulator of a successful step. -/
def runAcc (r : Res (Cpu × Nat)) : Option RegisterValue := (runOk r).map fun p => p.1.alu.accumulator

/-- Carry flag of a successful step. -/
def runCarry (r : Res (Cpu × Nat)) : Option Bool := (runOk r).map fun p => p.1.alu.flags.carry

/-- Auxiliary-carry flag of a successful step. -/
def runAux (r : Res (Cpu × Nat)) : Option Bool := (runOk r).map fun p => p.1.alu.flags.auxCarry

/-- A memory byte of a successful step. -/
def runMem (r : Res (Cpu × Nat)) (addr : Nat) : Option Nat := (runOk r).map fun p => p.1.memory.data addr

/-- Cycle count returned by a successful step. -/
def runCycles (r : Res (Cpu × Nat)) : Option Nat := (runOk r).map fun p => p.2

/-- A numeric observation of the CPU after a successful step. -/
def runCpuNat (r : Res (Cpu × Nat)) (f : Cpu → Nat) : Option Nat := (runOk r).map fun p => f p.1

/- ------------------------------------------------------------------ -/
/- Helper lemmas on bit arithmetic                                     -/
/- ------------------------------------------------------------------ -/

set_option maxRecDepth 2000 in
theorem land_fifteen : ∀ x < 256, x &&& 15 = x % 16 := by decide

theorem land_sixteen_pos : ∀ s < 31, (0 < (s &&& 16) ↔ 16 ≤ s) := by decide

set_option maxRecDepth 2000 in
theorem land_onetwentyeight : ∀ r < 256, ((r &&& 128) ≠ 0 ↔ r / 128 = 1) := by decide

/- ------------------------------------------------------------------ -/
/- The `try_add` divergence                                            -/
/- ------------------------------------------------------------------ -/

/-- When the right operand is an `Integer8Pair`, `RegisterValue::try_add`
calls itself with unchanged arguments, so no amount of fuel makes it
return (first with an `Integer16` left operand). -/
theorem tryAdd_int16_pair (fuel : Nat) : ∀ (x hi lo : Nat),
    RegisterValue.tryAdd fuel (RegisterValue.integer16 x) (RegisterValue.integer8Pair hi lo)
      = Res.div := by
  induction fuel with
  | zero => intro x hi lo; rfl
  | succ n ih => intro x hi lo; exact ih (combineValues hi lo) hi lo

/-- `try_add` of two `Integer8Pair`s (the shape produced by `DAD rp` for
rp ∈ {BC, DE, HL}) never returns, for any fuel. -/
theorem tryAdd_pair_pair (fuel hi lo hi' lo' : Nat) :
    RegisterValue.tryAdd fuel (RegisterValue.integer8Pair hi lo)
      (RegisterValue.integer8Pair hi' lo') = Res.div := by
  cases fuel with
  | zero => rfl
  | succ n => exact tryAdd_int16_pair n (combineValues hi lo) hi' lo'

/- ------------------------------------------------------------------ -/
/- The execute-for-cycles loop                                         -/
/- ------------------------------------------------------------------ -/

/-- `Cpu::execute_next` on a CPU that is not running returns zero cycles
and leaves the state untouched. -/
theorem executeNext_not_running {cpu : Cpu} (h : cpu.running = false) (fuel : Nat) :
    Cpu.executeNext fuel cpu = Res.ok (cpu, 0) := by
  unfold Cpu.executeNext
  rw [h]
  rfl

/-- On a CPU that is not running, the `while total_cycles <= target` loop
never makes progress: every iteration returns zero cycles on an unchanged
state, so the loop runs out of any fuel. -/
theorem executeCyclesLoop_not_running (fuel : Nat) : ∀ (cpu : Cpu) (target : Nat),
    cpu.running = false → cpu.totalCycles ≤ target →
    Cpu.executeCyclesLoop fuel cpu target = Res.div := by
  induction fuel with
  | zero => intro cpu target _ _; rfl
  | succ n ih =>
    intro cpu target h hle
    unfold Cpu.executeCyclesLoop
    rw [if_pos hle]
    show (Cpu.executeNext n cpu >>= _) = Res.div
    rw [executeNext_not_running h]
    show Cpu.executeCyclesLoop n cpu target = Res.div
    exact ih cpu target h hle

/-- Whenever the loop does return `Ok`, the final cycle total exceeds the
target and the returned value is the overshoot. -/
theorem executeCyclesLoop_ok (fuel : Nat) : ∀ (cpu : Cpu) (target : Nat),
    (match ExceptT.run (Cpu.executeCyclesLoop fuel cpu target) with
      | some (Except.ok p) => target < p.1.totalCycles ∧ p.2 = p.1.totalCycles - target
      | _ => True) := by
  induction fuel with
  | zero => intro cpu target; exact trivial
  | succ n ih =>
    intro cpu target
    unfold Cpu.executeCyclesLoop
    by_cases hle : cpu.totalCycles ≤ target
    · rw [if_pos hle]
      show (match ExceptT.run (Cpu.executeNext n cpu >>= fun r => Cpu.executeCyclesLoop n r.1 target) with
        | some (Except.ok p) => target < p.1.totalCycles ∧ p.2 = p.1.totalCycles - target
        | _ => True)
      rw [Res.run_bind]
      rcases h : ExceptT.run (Cpu.executeNext n cpu) with _ | e
      · exact trivial
      · rcases e with e | r
        · exact trivial
        · exact ih r.1 target
    · rw [if_neg hle]
      exact ⟨Nat.not_le.mp hle, rfl⟩

/-- The claim's termination property: some fuel makes `execute_cycles`
return (normally or with an error). -/
def ExecuteCyclesReturns (cpu : Cpu) (n : Nat) : Prop :=
  ∃ fuel, Cpu.executeCycles fuel cpu n ≠ Res.div

/- ------------------------------------------------------------------ -/
/- Concrete machine states used by the claims                          -/
/- ------------------------------------------------------------------ -/

/-- Memory holding the given address/byte pairs and zero elsewhere. -/
def memOfPairs (l : List (Nat × Nat)) : Memory := ⟨fun a => (l.lookup a).getD 0⟩

/-- An ALU with A = 0 and only the carry flag set. -/
def aluCarrySet : Alu :=
  { accumulator := RegisterValue.integer8 0, flags := { AluFlags.new with carry := true } }

/-- PC = 0x100, `STAX B` (opcode 0x02) at 0x100, BC = 0x1234, A = 0x56. -/
def staxCpu : Cpu := { Cpu.new with
  regArray := { RegisterArray.new with programCounter := 0x100, regB := 0x12, regC := 0x34 }
  alu := { Alu.new with accumulator := RegisterValue.integer8 0x56 }
  memory := memOfPairs [(0x100, 0x02)] }

/-- PC = 0x100, `RST 2` (opcode 0xD7) at 0x100, SP = 0x2000. -/
def rstCpu : Cpu := { Cpu.new with
  regArray := { RegisterArray.new with programCounter := 0x100, stackPointer := 0x2000 }
  memory := memOfPairs [(0x100, 0xD7)] }

/-- PC = 0x100, opcode 0x07 at 0x100, A = 0, carry flag as given. -/
def rlcCpu (c : Bool) : Cpu := { Cpu.new with
  regArray := { RegisterArray.new with programCounter := 0x100 }
  alu := { Alu.new with flags := { AluFlags.new with carry := c } }
  memory := memOfPairs [(0x100, 0x07)] }

/-- PC = 0x100, `DAA` (opcode 0x27) at 0x100, A = 0x9B, all flags clear. -/
def daaCpu : Cpu := { Cpu.new with
  regArray := { RegisterArray.new with programCounter := 0x100 }
  alu := { Alu.new with accumulator := RegisterValue.integer8 0x9B }
  memory := memOfPairs [(0x100, 0x27)] }

/-- PC = 0x100, `DAD B` (opcode 0x09) at 0x100, HL = 0x0001, BC = 0x0002. -/
def dadBCpu : Cpu := { Cpu.new with
  regArray := { RegisterArray.new with programCounter := 0x100, regH := 0, regL := 1, regB := 0, regC := 2 }
  memory := memOfPairs [(0x100, 0x09)] }

/-- PC = 0x100, `DAD SP` (opcode 0x39) at 0x100, HL = 0x0001, SP = 0x0002,
carry flag set. -/
def dadSpCpu : Cpu := { Cpu.new with
  regArray := { RegisterArray.new with programCounter := 0x100, regH := 0, regL := 1, stackPointer := 2 }
  alu := { Alu.new with flags := { AluFlags.new with carry := true } }
  memory := memOfPairs [(0x100, 0x39)] }

/-- Opcode bits `cc` of a condition code (`11 cc 010` is the Jcc family);
right inverse of `InstructionCondition::from_id`. -/
def ccId : InstructionCondition → Nat
  | InstructionCondition.NotZero => 0
  | InstructionCondition.Zero => 1
  | InstructionCondition.NoCarry => 2
  | InstructionCondition.Carry => 3
  | InstructionCondition.ParityOdd => 4
  | InstructionCondition.ParityEven => 5
  | InstructionCondition.Plus => 6
  | InstructionCondition.Minus => 7

instance : Fintype InstructionCondition :=
  ⟨⟨{InstructionCondition.NotZero, InstructionCondition.Zero, InstructionCondition.NoCarry,
     InstructionCondition.Carry, InstructionCondition.ParityOdd, InstructionCondition.ParityEven,
     InstructionCondition.Plus, InstructionCondition.Minus}, by decide⟩,
   by intro x; cases x <;> decide⟩

/-- PC = 0x100, `Jcc 0x0000` at 0x100 (opcode `0xC2 + 8·cc`, target bytes
zero), flags as given. -/
def jccCpu (cond : InstructionCondition) (z s p c a : Bool) : Cpu :=
  { Cpu.new with
    regArray := { RegisterArray.new with programCounter := 0x100 }
    alu := { Alu.new with flags := AluFlags.fromBools z s p c a }
    memory := memOfPairs [(0x100, 0xC2 + 8 * ccId cond)] }

/-- PC = 0x100, `JMP 0x0000` (opcode 0xC3, target bytes zero) at 0x100. -/
def jmpZeroCpu : Cpu := { Cpu.new with
  regArray := { RegisterArray.new with programCounter := 0x100 }
  memory := memOfPairs [(0x100, 0xC3)] }

/-- A CPU whose running flag is false. -/
def haltedCpu : Cpu := { Cpu.new with running := false }

/-- A freshly created CPU: PC = 0, memory all zero, so it executes `NOP`s. -/
def nopCpu : Cpu := Cpu.new

/- ------------------------------------------------------------------ -/
/- The claims                                                          -/
/- ------------------------------------------------------------------ -/

/-- C1.  The claim states that ADC produces `(a+b+c) mod 256` with carry
set iff `a+b+c ≥ 256` and auxiliary carry iff `(a&0xF)+(b&0xF)+c > 0xF`,
and that SBB sets carry iff `a < b+c` and auxiliary carry iff
`(a&0xF) < (b&0xF)+c`.  The code folds the incoming carry into the operand
with `wrapping_add` *before* computing the flags, so at a = 0x00,
b = 0xFF, carry-in 1 the effective operand wraps to 0: the result
`(a+b+c) mod 256 = 0` is still produced, but ADC reports carry = 0 and
auxiliary carry = 0 where the claim requires both set (`a+b+c = 256` and
`0xF + 1 > 0xF`), and SBB likewise reports carry = 0 where the claim
requires it set (`0 < 0xFF + 1`). -/
theorem claim_C1_adc_sbb_carry_bug :
    (aluCarrySet.add 0x00 0xFF true).1 = (0x00 + 0xFF + 1) % 256
    ∧ (aluCarrySet.add 0x00 0xFF true).2.flags.carry = false
    ∧ 256 ≤ 0x00 + 0xFF + 1
    ∧ (aluCarrySet.add 0x00 0xFF true).2.flags.auxCarry = false
    ∧ 0xF < (0x00 &&& 0xF) + (0xFF &&& 0xF) + 1
    ∧ (aluCarrySet.sub 0x00 0xFF true).1 = 0x00
    ∧ (aluCarrySet.sub 0x00 0xFF true).2.flags.carry = false
    ∧ 0x00 < 0xFF + 1
    ∧ (aluCarrySet.sub 0x00 0xFF true).2.flags.auxCarry = false
    ∧ (0x00 &&& 0xF) < (0xFF &&& 0xF) + 1 := by
  decide

/-- C2.  The claim states the two-step DAA algorithm with a *sticky* carry
in step 2, and that DAA at A = 0x9B with clear flags yields A = 0x01,
C = 1, AC = 1.  The code's step 2 goes through `Alu::add`, which rewrites
*all* flags: at A = 0x9B the final auxiliary carry is false (the claim and
spec scenario S2 require AC = 1), and entering step 2 with C already set
but no overflow (A = 0x10, C = 1) *clears* the carry instead of keeping it
set.  Both the ALU entry point and the full `DAA` instruction (opcode
0x27) are evaluated. -/
theorem claim_C2_daa_flags_bug :
    (Alu.new.decimalAdjust 0x9B).1 = 0x01
    ∧ (Alu.new.decimalAdjust 0x9B).2.flags.carry = true
    ∧ (Alu.new.decimalAdjust 0x9B).2.flags.auxCarry = false
    ∧ runAcc (Cpu.executeNext 16 daaCpu) = some (RegisterValue.integer8 0x01)
    ∧ runCarry (Cpu.executeNext 16 daaCpu) = some true
    ∧ runAux (Cpu.executeNext 16 daaCpu) = some false
    ∧ (aluCarrySet.decimalAdjust 0x10).1 = 0x70
    ∧ (aluCarrySet.decimalAdjust 0x10).2.flags.carry = false := by
  refine ⟨rfl, rfl, rfl, rfl, rfl, rfl, rfl, rfl⟩

/-- C3.  The claim states that opcode 0x07 decodes to RLC (plain rotate,
new low bit independent of the carry flag) and 0x17 to RAL (new low bit =
old carry).  The decoder has the two swapped: 0x07 becomes the
through-carry rotation and 0x17 the plain one, so executing opcode 0x07
with A = 0 copies the old carry flag into bit 0 (A becomes 0x01 when
C = 1 and 0x00 when C = 0) — the new low bit *does* depend on the
previous carry. -/
theorem claim_C3_rotate_decode_swapped :
    Instruction.decode (RegisterValue.integer8 0x07)
      = Except.ok (Instruction.RotateLeftThroughCarry InstructionSource.Accumulator)
    ∧ Instruction.decode (RegisterValue.integer8 0x17)
      = Except.ok (Instruction.RotateLeft InstructionSource.Accumulator)
    ∧ runAcc (Cpu.executeNext 16 (rlcCpu true)) = some (RegisterValue.integer8 0x01)
    ∧ runAcc (Cpu.executeNext 16 (rlcCpu false)) = some (RegisterValue.integer8 0x00)
    ∧ (aluCarrySet.rotate 0 false true).1 = 0x01
    ∧ (aluCarrySet.rotate 0 false false).1 = 0x00 := by
  refine ⟨rfl, rfl, rfl, rfl, rfl, rfl⟩

/-- C4.  The claim states that STAX rp stores the 8-bit accumulator at the
address in rp.  The decoder instead produces
`Move((rp), 16-bit ← rp)`: executing `STAX B` (opcode 0x02) with
BC = 0x1234 and A = 0x56 writes the 16-bit value of BC little-endian at
0x1234 (bytes 0x34, 0x12) — not the accumulator byte 0x56.  BC and A
themselves are left unchanged. -/
theorem claim_C4_stax_stores_pair :
    runMem (Cpu.executeNext 16 staxCpu) 0x1234 = some 0x34
    ∧ runMem (Cpu.executeNext 16 staxCpu) 0x1235 = some 0x12
    ∧ runMem (Cpu.executeNext 16 staxCpu) 0x1234 ≠ some 0x56
    ∧ staxCpu.alu.accumulator = RegisterValue.integer8 0x56
    ∧ runAcc (Cpu.executeNext 16 staxCpu) = some (RegisterValue.integer8 0x56)
    ∧ runCpuNat (Cpu.executeNext 16 staxCpu) (fun c => c.regArray.regB) = some 0x12
    ∧ runCpuNat (Cpu.executeNext 16 staxCpu) (fun c => c.regArray.regC) = some 0x34
    ∧ runPC (Cpu.executeNext 16 staxCpu) = some 0x101 := by
  refine ⟨rfl, rfl, by decide, rfl, rfl, rfl, rfl, rfl⟩

/-- C5.  The claim states that `RST n` pushes the current PC (SP drops by
2 and PC is stored little-endian at the new SP) and then jumps to `n*8`.
The `Reset` arm of `Cpu::execute` only writes `n*8` into PC: executing
`RST 2` (opcode 0xD7) with SP = 0x2000 leaves SP at 0x2000 and the bytes
at 0x1FFE/0x1FFF untouched (still zero, where the return address 0x0101
should have been stored), while PC does become 16. -/
theorem claim_C5_rst_missing_push :
    runPC (Cpu.executeNext 16 rstCpu) = some 16
    ∧ runSP (Cpu.executeNext 16 rstCpu) = some 0x2000
    ∧ runMem (Cpu.executeNext 16 rstCpu) 0x1FFE = some 0
    ∧ runMem (Cpu.executeNext 16 rstCpu) 0x1FFF = some 0
    ∧ runCycles (Cpu.executeNext 16 rstCpu) = some 11 := by
  refine ⟨rfl, rfl, rfl, rfl, rfl⟩

/-- C6.  The claim states that `DAD rp` sets HL to `(HL + rp) mod 2^16`,
affects only the carry flag (set iff the 16-bit sum overflows), and
completes for all operands.  The decoder turns DAD into
`Move(HL, Sum(HL, rp))`, whose evaluation calls `RegisterValue::try_add`
on two register-pair values; `try_add` recurses with unchanged arguments
on a pair right operand, so `DAD B/D/H` never completes (for any fuel),
and `DAD SP` (whose right operand is `Integer16`) completes but never
touches the carry flag: with HL = 1, SP = 2 and C previously 1, HL
becomes 3 and C stays 1 although the sum did not overflow. -/
theorem claim_C6_dad_broken :
    (∀ fuel hi lo hi' lo', RegisterValue.tryAdd fuel (RegisterValue.integer8Pair hi lo)
        (RegisterValue.integer8Pair hi' lo') = Res.div)
    ∧ (∀ fuel, Cpu.executeNext fuel dadBCpu = Res.div)
    ∧ runCpuNat (Cpu.executeNext 16 dadSpCpu) (fun c => c.regArray.regH) = some 0
    ∧ runCpuNat (Cpu.executeNext 16 dadSpCpu) (fun c => c.regArray.regL) = some 3
    ∧ runCarry (Cpu.executeNext 16 dadSpCpu) = some true := by
  refine ⟨fun fuel hi lo hi' lo' => tryAdd_pair_pair fuel hi lo hi' lo', ?_, rfl, rfl, rfl⟩
  intro fuel
  show (((RegisterValue.tryAdd fuel (RegisterValue.integer8Pair 0 1)
      (RegisterValue.integer8Pair 0 2) >>= _) >>= _) >>= _) = Res.div
  rw [tryAdd_pair_pair]
  rfl

/-- C7.  Memory accesses fail exactly for 16-bit accesses at address
0xFFFF: every 8-bit read and write succeeds at any address, every 16-bit
read and write succeeds at addresses up to 0xFFFE, and the 16-bit access
at 0xFFFF returns an error (the Rust function returns the error before
touching the array, so a failing access leaves memory unchanged — in this
embedding no new memory value is produced at all). -/
theorem claim_C7_memory_bounds (m : Memory) (a v w : Nat)
    (ha : a < 0x10000) (_hv : v < 256) :
    (∃ m', m.write (RegisterValue.integer16 a) (RegisterValue.integer8 v) = Except.ok m')
    ∧ m.read (RegisterValue.integer16 a) MemorySize.integer8
        = Except.ok (RegisterValue.integer8 (m.data a))
    ∧ (a ≤ 0xFFFE → ∃ m', m.write (RegisterValue.integer16 a) (RegisterValue.integer16 w)
        = Except.ok m')
    ∧ (a ≤ 0xFFFE → ∃ val, m.read (RegisterValue.integer16 a) MemorySize.integer16
        = Except.ok val)
    ∧ (∃ e, m.write (RegisterValue.integer16 0xFFFF) (RegisterValue.integer16 w)
        = Except.error e)
    ∧ (∃ e, m.read (RegisterValue.integer16 0xFFFF) MemorySize.integer16
        = Except.error e) := by
  refine ⟨⟨_, rfl⟩, rfl, fun hle => ?_, fun hle => ?_, ⟨_, rfl⟩, ⟨_, rfl⟩⟩
  · simp only [Memory.write, RegisterValue.toU16]
    rw [if_neg (by omega)]
    exact ⟨_, rfl⟩
  · simp only [Memory.read, RegisterValue.toU16]
    rw [if_neg (by omega)]
    exact ⟨_, rfl⟩

/-- Witness for C7 at m = `Memory.new`, a = 0x1234, v = 0xAB, w = 0xCDEF. -/
theorem claim_C7_memory_bounds_witness :
    (0x1234 < 0x10000 ∧ 0xAB < 256)
    ∧ ((∃ m', Memory.new.write (RegisterValue.integer16 0x1234) (RegisterValue.integer8 0xAB)
          = Except.ok m')
      ∧ Memory.new.read (RegisterValue.integer16 0x1234) MemorySize.integer8
          = Except.ok (RegisterValue.integer8 (Memory.new.data 0x1234))
      ∧ (0x1234 ≤ 0xFFFE → ∃ m', Memory.new.write (RegisterValue.integer16 0x1234)
          (RegisterValue.integer16 0xCDEF) = Except.ok m')
      ∧ (0x1234 ≤ 0xFFFE → ∃ val, Memory.new.read (RegisterValue.integer16 0x1234)
          MemorySize.integer16 = Except.ok val)
      ∧ (∃ e, Memory.new.write (RegisterValue.integer16 0xFFFF)
          (RegisterValue.integer16 0xCDEF) = Except.error e)
      ∧ (∃ e, Memory.new.read (RegisterValue.integer16 0xFFFF) MemorySize.integer16
          = Except.error e)) :=
  ⟨by decide, claim_C7_memory_bounds Memory.new 0x1234 0xAB 0xCDEF (by decide) (by decide)⟩

/-- C8.  ALU ADD without carry-in: for all byte operands the result is
`(a+b) mod 256`, carry is set iff `a+b ≥ 256`, auxiliary carry iff
`(a mod 16)+(b mod 16) ≥ 16`, zero iff the result is 0, sign is bit 7 of
the result, and parity is set iff the result's popcount is even. -/
theorem claim_C8_add_flags (alu : Alu) (a b : Nat) (ha : a < 256) (hb : b < 256) :
    (alu.add a b false).1 = (a + b) % 256
    ∧ ((alu.add a b false).2.flags.carry = true ↔ 256 ≤ a + b)
    ∧ ((alu.add a b false).2.flags.auxCarry = true ↔ 16 ≤ a % 16 + b % 16)
    ∧ ((alu.add a b false).2.flags.zero = true ↔ (a + b) % 256 = 0)
    ∧ ((alu.add a b false).2.flags.sign = true ↔ ((a + b) % 256) / 128 = 1)
    ∧ ((alu.add a b false).2.flags.parity = true ↔ countOnes8 ((a + b) % 256) % 2 = 0) := by
  refine ⟨rfl, ?_, ?_, ?_, ?_, ?_⟩
  · show decide (255 < a + b) = true ↔ 256 ≤ a + b
    simp only [decide_eq_true_eq]
    omega
  · show decide (0 < ((a &&& 15) + (b &&& 15)) &&& 16) = true ↔ 16 ≤ a % 16 + b % 16
    rw [land_fifteen a ha, land_fifteen b hb]
    simp only [decide_eq_true_eq]
    exact land_sixteen_pos _ (by omega)
  · show decide ((a + b) % 256 = 0) = true ↔ (a + b) % 256 = 0
    simp only [decide_eq_true_eq]
  · show decide (((a + b) % 256 &&& 128) ≠ 0) = true ↔ ((a + b) % 256) / 128 = 1
    simp only [decide_eq_true_eq]
    exact land_onetwentyeight _ (Nat.mod_lt _ (by norm_num))
  · show decide (countOnes8 ((a + b) % 256) % 2 = 0) = true
        ↔ countOnes8 ((a + b) % 256) % 2 = 0
    simp only [decide_eq_true_eq]

/-- Witness for C8 at a = 0x2E, b = 0x6C (the spec's scenario S1:
result 0x9A with S = 1, Z = 0, AC = 1, P = 1, C = 0). -/
theorem claim_C8_add_flags_witness :
    (0x2E < 256 ∧ 0x6C < 256)
    ∧ ((Alu.new.add 0x2E 0x6C false).1 = (0x2E + 0x6C) % 256
      ∧ ((Alu.new.add 0x2E 0x6C false).2.flags.carry = true ↔ 256 ≤ 0x2E + 0x6C)
      ∧ ((Alu.new.add 0x2E 0x6C false).2.flags.auxCarry = true ↔ 16 ≤ 0x2E % 16 + 0x6C % 16)
      ∧ ((Alu.new.add 0x2E 0x6C false).2.flags.zero = true ↔ (0x2E + 0x6C) % 256 = 0)
      ∧ ((Alu.new.add 0x2E 0x6C false).2.flags.sign = true ↔ ((0x2E + 0x6C) % 256) / 128 = 1)
      ∧ ((Alu.new.add 0x2E 0x6C false).2.flags.parity = true
          ↔ countOnes8 ((0x2E + 0x6C) % 256) % 2 = 0)) :=
  ⟨by decide, claim_C8_add_flags Alu.new 0x2E 0x6C (by decide) (by decide)⟩

/-- C9 (counterexample).  The claim states that `execute_cycles` returns
for every CPU state, in particular when the CPU is not running.  On a CPU
that is not running, `execute_next` returns zero cycles on an unchanged
state, so `total_cycles` never exceeds the target and the loop never
terminates: no fuel makes `execute_cycles` return. -/
theorem claim_C9_halted_never_returns : ¬ ExecuteCyclesReturns haltedCpu 5 := by
  intro h
  obtain ⟨fuel, hne⟩ := h
  exact hne (executeCyclesLoop_not_running fuel haltedCpu (haltedCpu.totalCycles + 5) rfl
    (Nat.le_add_right _ _))

/-- C9 (amended).  `execute_cycles(n)` records the target
`total_cycles + n` and loops while `total_cycles ≤ target`; whenever it
returns normally the final total exceeds the target and the returned value
is the overshoot (executed minus target), but when the CPU is not running
it never returns (the loop spins on an unchanged state), for every `n` and
every fuel. -/
theorem claim_C9_execute_cycles :
    (∀ fuel (cpu : Cpu) n,
      (match ExceptT.run (Cpu.executeCycles fuel cpu n) with
        | some (Except.ok p) =>
            cpu.totalCycles + n < p.1.totalCycles
            ∧ p.2 = p.1.totalCycles - (cpu.totalCycles + n)
        | _ => True))
    ∧ (∀ (cpu : Cpu) n fuel, cpu.running = false →
        Cpu.executeCycles fuel cpu n = Res.div) := by
  constructor
  · intro fuel cpu n
    exact executeCyclesLoop_ok fuel cpu (cpu.totalCycles + n)
  · intro cpu n fuel h
    exact executeCyclesLoop_not_running fuel cpu (cpu.totalCycles + n) h (Nat.le_add_right _ _)

/-- Witness for C9 at the halted CPU (discharging the `running = false`
hypothesis) and a concrete successful run: a fresh CPU executing `NOP`s
for a zero-cycle budget returns overshoot 4. -/
theorem claim_C9_execute_cycles_witness :
    (haltedCpu.running = false ∧ Cpu.executeCycles 50 haltedCpu 5 = Res.div)
    ∧ runCycles (Cpu.executeCycles 8 nopCpu 0) = some 4 :=
  ⟨⟨rfl, claim_C9_execute_cycles.2 haltedCpu 5 50 rfl⟩, rfl⟩

set_option maxHeartbeats 4000000 in
/-- C10.  Only the unconditional `JMP` treats a zero target as
termination: for every condition code and every flag state satisfying it,
executing `Jcc 0x0000` writes 0 into PC and leaves the running flag true,
while executing `JMP 0x0000` clears the running flag (and does not touch
PC, which stays just past the operand). -/
theorem claim_C10_conditional_jump_to_zero :
    (∀ cond : InstructionCondition, ∀ z s p c a : Bool,
      (AluFlags.fromBools z s p c a).evaluateCondition cond = true →
      runRunning (Cpu.executeNext 16 (jccCpu cond z s p c a)) = some true
      ∧ runPC (Cpu.executeNext 16 (jccCpu cond z s p c a)) = some 0)
    ∧ runRunning (Cpu.executeNext 16 jmpZeroCpu) = some false
    ∧ runPC (Cpu.executeNext 16 jmpZeroCpu) = some 0x103 := by
  refine ⟨by decide, rfl, rfl⟩

/-- Witness for C10 at `JZ 0x0000` with the zero flag set. -/
theorem claim_C10_conditional_jump_to_zero_witness :
    (AluFlags.fromBools true false false false false).evaluateCondition
        InstructionCondition.Zero = true
    ∧ (runRunning (Cpu.executeNext 16 (jccCpu InstructionCondition.Zero true false false false false))
          = some true
      ∧ runPC (Cpu.executeNext 16 (jccCpu InstructionCondition.Zero true false false false false))
          = some 0) :=
  ⟨by decide, claim_C10_conditional_jump_to_zero.1 InstructionCondition.Zero
    true false false false false (by decide)⟩

end I8080
